import Mathlib

/-!
# Verification of the calendar-summary core

Shallow embedding of the event normalization and summary-formatting
pipeline of the `calendar-summary` repository:

* `src/calendar_client.py` — `_is_declined`, `_process_event`, the
  filtering loop of `get_events`;
* `src/summariser.py` — `_format_single_event`,
  `_format_events_for_claude`;
* `src/whatsapp_client.py` — the length-bound truncation of
  `send_summary`.

Python strings are embedded as `List Char` (a Python `str` is a sequence
of code points, and both `len` and slicing count code points).  Raw
calendar records are embedded structurally, with `Option` marking fields
that may be absent from the provider mapping.  Code that can raise an
exception is embedded in `Except Unit`.
-/

set_option maxRecDepth 4000

deriving instance DecidableEq for Except

/-- One entry of a raw record's `attendees` list, as read by
`calendar_client.py`.  `none` marks a key absent from the provider
mapping (`attendee.get(...)`). -/
structure RawAttendee where
  self : Option Bool
  responseStatus : Option (List Char)
  email : Option (List Char)
  displayName : Option (List Char)
  deriving DecidableEq

/-- A raw record's `start` or `end` mapping: at most a `dateTime`
(timestamp) entry and a `date` (date-only) entry. -/
structure RawTime where
  dateTime : Option (List Char)
  date : Option (List Char)
  deriving DecidableEq

/-- A raw record's `organizer` mapping; only `displayName` is read. -/
structure RawOrganizer where
  displayName : Option (List Char)
  deriving DecidableEq

/-- A raw event record as returned by the calendar provider, restricted
to the keys `calendar_client.py` reads.  `none` marks an absent key;
in particular `start = none` / `end_ = none` model a record lacking the
`start` / `end` key, whose subscript access raises `KeyError`. -/
structure RawEvent where
  summary : Option (List Char)
  description : Option (List Char)
  start : Option RawTime
  end_ : Option RawTime
  attendees : Option (List RawAttendee)
  location : Option (List Char)
  organizer : Option RawOrganizer
  htmlLink : Option (List Char)
  deriving DecidableEq

/-- One processed attendee entry as built by `_process_event`
(`calendar_client.py` lines 197–201): `email`, `name` (display name
falling back to the email), `status` (the raw `responseStatus`, `none`
when absent). -/
structure AttendeeRef where
  email : Option (List Char)
  name : Option (List Char)
  status : Option (List Char)
  deriving DecidableEq

/-- The processed event dictionary returned by `_process_event`
(`calendar_client.py` lines 203–213).  `start`/`end_` hold the selected
raw string, or `none` when both the `dateTime` and `date` entries were
absent (Python's nested `.get` chain then yields `None`). -/
structure ProcessedEvent where
  summary : List Char
  description : List Char
  start : Option (List Char)
  end_ : Option (List Char)
  is_all_day : Bool
  location : List Char
  attendees : List AttendeeRef
  organizer : List Char
  htmlLink : List Char
  deriving DecidableEq

/-- `_is_declined` (`calendar_client.py` lines 159–174): scan the
record's attendee list and report whether an entry has a truthy `self`
and `responseStatus == "declined"`. -/
def is_declined (e : RawEvent) : Bool :=
  (e.attendees.getD []).any fun a =>
    a.self.getD false && a.responseStatus == some ("declined".data)

/-- The body of the attendee loop of `_process_event`
(`calendar_client.py` lines 197–201): build one attendee dictionary. -/
def mk_attendee_ref (a : RawAttendee) : AttendeeRef :=
  { email := a.email
  , name := a.displayName <|> a.email
  , status := a.responseStatus }

/-- The attendee loop of `_process_event` (`calendar_client.py` lines
194–201): keep every entry whose `self` is not truthy, in order. -/
def collect_attendees : List RawAttendee → List AttendeeRef
  | [] => []
  | a :: rest =>
    if a.self.getD false then collect_attendees rest
    else mk_attendee_ref a :: collect_attendees rest

/-- `_process_event` (`calendar_client.py` lines 176–213).  The
subscript accesses `event['start']` and `event['end']` raise `KeyError`
when the key is absent, modelled by `Except.error ()`; all other fields
use `.get` defaults and cannot fail. -/
def process_event (e : RawEvent) : Except Unit ProcessedEvent :=
  match e.start, e.end_ with
  | some st, some en =>
    .ok { summary := e.summary.getD ("No Title".data)
        , description := e.description.getD []
        , start := st.dateTime <|> st.date
        , end_ := en.dateTime <|> en.date
        , is_all_day := st.date.isSome
        , location := e.location.getD []
        , attendees := collect_attendees (e.attendees.getD [])
        , organizer := (e.organizer.bind RawOrganizer.displayName).getD
            ("Unknown".data)
        , htmlLink := e.htmlLink.getD [] }
  | _, _ => .error ()

/-- The filtering loop of `get_events` (`calendar_client.py` lines
139–153): skip declined records, process the rest in order.  An
exception raised by `_process_event` is not caught (the surrounding
`except` clause only handles `HttpError`), so it aborts the whole call:
this is the `Except.error` outcome. -/
def get_events : List RawEvent → Except Unit (List ProcessedEvent)
  | [] => .ok []
  | e :: rest =>
    if is_declined e then get_events rest
    else
      match process_event e with
      | .error u => .error u
      | .ok p =>
        match get_events rest with
        | .error u => .error u
        | .ok tail => .ok (p :: tail)

/-- Modelled from the spec: the `response_status` enumeration of an
`AttendeeRef` (`accepted`, `declined`, `tentative`, `needsAction`,
`unknown`). -/
inductive ResponseStatus
  | accepted
  | declined
  | tentative
  | needsAction
  | unknown
  deriving DecidableEq

/-- Modelled from the spec: the abstraction from the code's raw
`status` value (the provider string, or `none` when absent) to the
spec's `response_status` enumeration; a missing or unrecognised
`responseStatus` maps to `unknown`. -/
def to_response_status : Option (List Char) → ResponseStatus
  | none => ResponseStatus.unknown
  | some s =>
    if s = ("accepted".data) then ResponseStatus.accepted
    else if s = ("declined".data) then ResponseStatus.declined
    else if s = ("tentative".data) then ResponseStatus.tentative
    else if s = ("needsAction".data) then ResponseStatus.needsAction
    else ResponseStatus.unknown

/-- Sample self-declined attendee entry. -/
def c2_att : RawAttendee :=
  { self := some true
  , responseStatus := some ("declined".data)
  , email := some ("me@example.com".data)
  , displayName := none }

/-- Sample raw record declined by the authenticated user. -/
def c2_ev : RawEvent :=
  { summary := some ("Planning".data)
  , description := none
  , start := some ⟨some ("2025-01-07T13:00:00+00:00".data), none⟩
  , end_ := some ⟨some ("2025-01-07T14:00:00+00:00".data), none⟩
  , attendees := some [c2_att]
  , location := none
  , organizer := none
  , htmlLink := none }

/-- Sample well-formed raw record. -/
def c4_good : RawEvent :=
  { summary := some ("Standup".data)
  , description := none
  , start := some ⟨some ("2025-01-06T09:00:00+00:00".data), none⟩
  , end_ := some ⟨some ("2025-01-06T09:15:00+00:00".data), none⟩
  , attendees := none
  , location := none
  , organizer := none
  , htmlLink := none }

/-- The processed form of `c4_good`. -/
def c4_good_processed : ProcessedEvent :=
  { summary := ("Standup".data)
  , description := []
  , start := some ("2025-01-06T09:00:00+00:00".data)
  , end_ := some ("2025-01-06T09:15:00+00:00".data)
  , is_all_day := false
  , location := []
  , attendees := []
  , organizer := ("Unknown".data)
  , htmlLink := [] }

/-- Sample malformed raw record: it has neither a `start` nor an `end`
key, so `_process_event` raises `KeyError`. -/
def c4_bad : RawEvent :=
  { summary := some ("Broken".data)
  , description := none
  , start := none
  , end_ := none
  , attendees := none
  , location := none
  , organizer := none
  , htmlLink := none }

/-- Sample raw record whose `start` mapping carries both a `dateTime`
and a `date` entry. -/
def c5_both : RawEvent :=
  { summary := none
  , description := none
  , start := some ⟨some ("2024-03-05T09:00:00+00:00".data), some ("2024-03-05".data)⟩
  , end_ := some ⟨some ("2024-03-05T10:00:00+00:00".data), some ("2024-03-05".data)⟩
  , attendees := none
  , location := none
  , organizer := none
  , htmlLink := none }

/-- The processed form of `c5_both`: the timestamp string is selected
for `start`, yet `is_all_day` is `true`. -/
def c5_both_processed : ProcessedEvent :=
  { summary := ("No Title".data)
  , description := []
  , start := some ("2024-03-05T09:00:00+00:00".data)
  , end_ := some ("2024-03-05T10:00:00+00:00".data)
  , is_all_day := true
  , location := []
  , attendees := []
  , organizer := ("Unknown".data)
  , htmlLink := [] }

/-- Sample non-self attendee entry with no `responseStatus` and no
`displayName`. -/
def c6_att : RawAttendee :=
  { self := none
  , responseStatus := none
  , email := some ("colleague@example.com".data)
  , displayName := none }

/-- Sample self attendee entry (accepted). -/
def c6_self_att : RawAttendee :=
  { self := some true
  , responseStatus := some ("accepted".data)
  , email := some ("me@example.com".data)
  , displayName := some ("Me".data) }

/-- Sample raw record with one self and one non-self attendee entry. -/
def c6_ev : RawEvent :=
  { summary := some ("Sync".data)
  , description := none
  , start := some ⟨some ("2025-02-03T15:00:00+00:00".data), none⟩
  , end_ := some ⟨some ("2025-02-03T15:30:00+00:00".data), none⟩
  , attendees := some [c6_self_att, c6_att]
  , location := none
  , organizer := none
  , htmlLink := none }

/-- The processed form of `c6_ev`. -/
def c6_processed : ProcessedEvent :=
  { summary := ("Sync".data)
  , description := []
  , start := some ("2025-02-03T15:00:00+00:00".data)
  , end_ := some ("2025-02-03T15:30:00+00:00".data)
  , is_all_day := false
  , location := []
  , attendees := [mk_attendee_ref c6_att]
  , organizer := ("Unknown".data)
  , htmlLink := [] }

/-- The numeric value of a decimal digit character, `none` otherwise. -/
def digit_val (c : Char) : Option Nat :=
  if c.isDigit then some (c.toNat - 48) else none

/-- Read exactly `n` decimal digits, accumulating their value. -/
def parse_digits_aux : Nat → Nat → List Char → Option (Nat × List Char)
  | 0, acc, s => some (acc, s)
  | n + 1, acc, s =>
    match s with
    | [] => none
    | c :: rest =>
      match digit_val c with
      | none => none
      | some v => parse_digits_aux n (acc * 10 + v) rest

/-- Read exactly `n` decimal digits. -/
def parse_digits (n : Nat) (s : List Char) : Option (Nat × List Char) :=
  parse_digits_aux n 0 s

/-- Consume one expected character. -/
def expect_char (c : Char) : List Char → Option (List Char)
  | [] => none
  | x :: rest => if x = c then some rest else none

/-- Gregorian leap-year rule, as used by Python's `datetime.date`. -/
def is_leap_year (y : Nat) : Bool :=
  y % 4 = 0 && (y % 100 != 0 || y % 400 = 0)

/-- Number of days in a month, as validated by Python's
`datetime.date`. -/
def days_in_month (y m : Nat) : Nat :=
  if m = 2 then (if is_leap_year y then 29 else 28)
  else if m = 4 ∨ m = 6 ∨ m = 9 ∨ m = 11 then 30
  else 31

/-- Parse the leading `YYYY-MM-DD` of an ISO string, validating the
ranges Python's `datetime.date` constructor enforces. -/
def parse_date_iso (s : List Char) : Option (Nat × Nat × Nat × List Char) := do
  let (y, s1) ← parse_digits 4 s
  let s2 ← expect_char '-' s1
  let (m, s3) ← parse_digits 2 s2
  let s4 ← expect_char '-' s3
  let (d, s5) ← parse_digits 2 s4
  if 1 ≤ y ∧ 1 ≤ m ∧ m ≤ 12 ∧ 1 ≤ d ∧ d ≤ days_in_month y m then
    some (y, m, d, s5)
  else none

/-- Parse `HH:MM` or `HH:MM:SS`, validating the time-of-day ranges. -/
def parse_time_iso (s : List Char) : Option (Nat × Nat × Nat × List Char) := do
  let (h, s1) ← parse_digits 2 s
  let s2 ← expect_char ':' s1
  let (mi, s3) ← parse_digits 2 s2
  match s3 with
  | ':' :: rest => do
    let (sec, s4) ← parse_digits 2 rest
    if h ≤ 23 ∧ mi ≤ 59 ∧ sec ≤ 59 then some (h, mi, sec, s4) else none
  | _ => if h ≤ 23 ∧ mi ≤ 59 then some (h, mi, 0, s3) else none

/-- Parse an optional fractional-seconds part (`.fff` or `.ffffff`,
the two widths Python's `datetime.fromisoformat` accepts), yielding
microseconds. -/
def parse_micro : List Char → Option (Nat × List Char)
  | '.' :: rest =>
    (match parse_digits 6 rest with
     | some (v, s) => some (v, s)
     | none =>
       match parse_digits 3 rest with
       | some (v, s) => some (v * 1000, s)
       | none => none)
  | s => some (0, s)

/-- Parse an optional `±HH:MM` UTC-offset suffix; `none` in the result
marks a naive (offset-free) time. -/
def parse_offset_iso : List Char → Option (Option Int × List Char)
  | [] => some (none, [])
  | c :: rest =>
    if c = '+' ∨ c = '-' then do
      let (oh, s1) ← parse_digits 2 rest
      let s2 ← expect_char ':' s1
      let (om, s3) ← parse_digits 2 s2
      if oh ≤ 23 ∧ om ≤ 59 then
        some (some (if c = '-' then -((oh * 60 + om : Nat) : Int)
                    else ((oh * 60 + om : Nat) : Int)), s3)
      else none
    else some (none, c :: rest)

/-- A Python `datetime.datetime` value: calendar fields plus an
optional UTC offset in minutes (`none` = a naive datetime). -/
structure PyDateTime where
  year : Nat
  month : Nat
  day : Nat
  hour : Nat
  minute : Nat
  second : Nat
  microsecond : Nat
  tzOffset : Option Int
  deriving DecidableEq

/-- Models Python's `datetime.fromisoformat` on the ISO-8601 subset the
calendar provider produces: `YYYY-MM-DD`, optionally followed by a
single separator character and `HH:MM[:SS[.fff[fff]]]` and an optional
`±HH:MM` offset.  `none` models the `ValueError` raised on any other
string. -/
def fromisoformat (s : List Char) : Option PyDateTime := do
  let (y, m, d, rest) ← parse_date_iso s
  match rest with
  | [] => some ⟨y, m, d, 0, 0, 0, 0, none⟩
  | _sep :: rest2 => do
    let (h, mi, sec, rest3) ← parse_time_iso rest2
    let (micro, rest4) ← parse_micro rest3
    let (off, rest5) ← parse_offset_iso rest4
    match rest5 with
    | [] => some ⟨y, m, d, h, mi, sec, micro, off⟩
    | _ => none

/-- Day number of a Gregorian date (days since 0000-03-01), the
standard civil-from-days correspondence; strictly monotone in the date,
which is all comparisons need. -/
def days_from_civil (y m d : Nat) : Nat :=
  let y1 := if m ≤ 2 then y - 1 else y
  let era := y1 / 400
  let yoe := y1 % 400
  let mp := if 2 < m then m - 3 else m + 9
  let doy := (153 * mp + 2) / 5 + (d - 1)
  let doe := yoe * 365 + yoe / 4 - yoe / 100 + doy
  era * 146097 + doe

/-- The instant of a `PyDateTime` in microseconds (UTC for aware
values, wall clock for naive ones), the order Python's datetime
comparison uses. -/
def to_epoch_micro (t : PyDateTime) : Int :=
  ((days_from_civil t.year t.month t.day : Int) * 86400
    + (t.hour : Int) * 3600 + (t.minute : Int) * 60 + (t.second : Int)
    - (t.tzOffset.getD 0) * 60) * 1000000 + (t.microsecond : Int)

/-- Models Python's `a > b` on datetimes: comparing a naive and an
aware value raises `TypeError` (the `none` outcome); otherwise compare
the instants. -/
def py_gt (a b : PyDateTime) : Option Bool :=
  if a.tzOffset.isSome = b.tzOffset.isSome then
    some (decide (to_epoch_micro b < to_epoch_micro a))
  else none

/-- Models Python's `s.replace('Z', '+00:00')` (every occurrence of the
single-character pattern is replaced). -/
def replace_z : List Char → List Char
  | [] => []
  | c :: rest =>
    if c = 'Z' then ("+00:00".data) ++ replace_z rest
    else c :: replace_z rest

/-- Models `datetime.fromisoformat(event['start'].replace('Z',
'+00:00'))` on a processed event (`summariser.py` lines 99–101 and
105–107).  `none` covers both the exception on a `None` start value and
the `ValueError` from parsing, each of which propagates in Python. -/
def parse_start (e : ProcessedEvent) : Option PyDateTime :=
  e.start.bind fun s => fromisoformat (replace_z s)

/-- Zero-pad a number to a given width, as Python's `strftime` does. -/
def pad_num (width n : Nat) : List Char :=
  let ds := (Nat.repr n).data
  List.replicate (width - ds.length) '0' ++ ds

/-- Python's `strftime('%Y-%m-%d %H:%M')`. -/
def strftime_ymd_hm (t : PyDateTime) : List Char :=
  pad_num 4 t.year ++ ("-".data) ++ pad_num 2 t.month ++ ("-".data)
    ++ pad_num 2 t.day ++ (" ".data) ++ pad_num 2 t.hour ++ (":".data)
    ++ pad_num 2 t.minute

/-- Python's `strftime('%H:%M')`. -/
def strftime_hm (t : PyDateTime) : List Char :=
  pad_num 2 t.hour ++ (":".data) ++ pad_num 2 t.minute

/-- Python's f-string rendering of an optional string value: `None`
renders as the four characters `None`. -/
def py_str_of_opt : Option (List Char) → List Char
  | none => ("None".data)
  | some s => s

/-- The `time_str` computation of `_format_single_event`
(`summariser.py` lines 137–147).  The all-day branch is outside any
`try`, so a `None` start raises (`Except.error`); the timed branch
wraps parsing in a bare `try/except` whose fallback renders the two raw
values verbatim joined by `" - "`. -/
def time_str (e : ProcessedEvent) : Except Unit (List Char) :=
  if e.is_all_day then
    match e.start with
    | none => .error ()
    | some s =>
      .ok ((if 'T' ∈ s then s.takeWhile (fun c => decide (c ≠ 'T')) else s)
        ++ (" (All Day)".data))
  else
    match e.start, e.end_ with
    | some s, some en =>
      (match fromisoformat (replace_z s), fromisoformat (replace_z en) with
       | some sd, some ed =>
         .ok (strftime_ymd_hm sd ++ (" - ".data) ++ strftime_hm ed)
       | _, _ => .ok (py_str_of_opt e.start ++ (" - ".data)
           ++ py_str_of_opt e.end_))
    | _, _ => .ok (py_str_of_opt e.start ++ (" - ".data)
        ++ py_str_of_opt e.end_)

/-- The optional location line of `_format_single_event`
(`summariser.py` lines 153–154). -/
def loc_part (e : ProcessedEvent) : List Char :=
  if e.location = [] then []
  else ("  Location: ".data) ++ e.location ++ ("\n".data)

/-- The optional description line of `_format_single_event`
(`summariser.py` lines 156–159): included only when the description is
non-empty; a description longer than 200 characters is cut to its first
200 characters with a trailing `"..."`. -/
def desc_part (e : ProcessedEvent) : List Char :=
  if e.description = [] then []
  else
    ("  Description: ".data)
      ++ (if 200 < e.description.length then e.description.take 200 ++ ("...".data)
          else e.description)
      ++ ("\n".data)

/-- The optional attendee-count line of `_format_single_event`
(`summariser.py` lines 161–163). -/
def att_part (e : ProcessedEvent) : List Char :=
  if e.attendees = [] then []
  else ("  Attendees: ".data) ++ (Nat.repr e.attendees.length).data
    ++ (" people\n".data)

/-- `_format_single_event` (`summariser.py` lines 119–165): the title
line, the time line, then the optional location, description and
attendee-count lines. -/
def format_single_event (e : ProcessedEvent) : Except Unit (List Char) :=
  match time_str e with
  | .error u => .error u
  | .ok t =>
    .ok (("• ".data) ++ e.summary ++ ("\n".data)
      ++ ("  Time: ".data) ++ t ++ ("\n".data)
      ++ loc_part e ++ desc_part e ++ att_part e)

/-- The event loops of `_format_events_for_claude` (`summariser.py`
lines 90–92 and 113–115): each block followed by a blank line. -/
def render_blocks : List ProcessedEvent → Except Unit (List Char)
  | [] => .ok []
  | e :: rest =>
    match format_single_event e with
    | .error u => .error u
    | .ok b =>
      match render_blocks rest with
      | .error u => .error u
      | .ok t => .ok (b ++ ("\n".data) ++ t)

/-- The weekly body of `_format_events_for_claude` (`summariser.py`
lines 87–92): a fixed sentence when no weekly events exist, the
rendered blocks otherwise. -/
def weekly_section (weekly : List ProcessedEvent) : Except Unit (List Char) :=
  if weekly = [] then .ok ("No events scheduled for the next week.\n".data)
  else render_blocks weekly

/-- The `weekly_end` computation of `_format_events_for_claude`
(`summariser.py` lines 97–101): `None` when the weekly list is empty,
otherwise the parsed start of its last element (a parse failure
raises). -/
def compute_weekly_end (weekly : List ProcessedEvent) :
    Except Unit (Option PyDateTime) :=
  match weekly.getLast? with
  | none => .ok none
  | some e =>
    match parse_start e with
    | none => .error ()
    | some d => .ok (some d)

/-- The `future_events` loop of `_format_events_for_claude`
(`summariser.py` lines 103–109): every monthly event's start is parsed
(a failure raises); an event is kept iff `weekly_end` is set and the
event's start is strictly later (`weekly_end and event_start >
weekly_end`); comparing a naive with an aware datetime raises. -/
def future_events (wEnd : Option PyDateTime) :
    List ProcessedEvent → Except Unit (List ProcessedEvent)
  | [] => .ok []
  | ev :: rest =>
    match parse_start ev with
    | none => .error ()
    | some d =>
      match wEnd with
      | none => future_events wEnd rest
      | some w =>
        match py_gt d w with
        | none => .error ()
        | some b =>
          match future_events wEnd rest with
          | .error u => .error u
          | .ok tail => .ok (if b then ev :: tail else tail)

/-- The monthly section of `_format_events_for_claude` (`summariser.py`
lines 94–115): empty unless some future event exists, otherwise the
fixed monthly header followed by the rendered future events. -/
def monthly_section (weekly monthly : List ProcessedEvent) :
    Except Unit (List Char) :=
  match compute_weekly_end weekly with
  | .error u => .error u
  | .ok wEnd =>
    match future_events wEnd monthly with
    | .error u => .error u
    | .ok fut =>
      if fut = [] then .ok []
      else
        match render_blocks fut with
        | .error u => .error u
        | .ok bs =>
          .ok (("\n=== MONTHLY LOOK-AHEAD (Important Items Beyond This Week) ===\n\n".data)
            ++ bs)

/-- `_format_events_for_claude` (`summariser.py` lines 70–117): the
weekly header and body, then — only when a truthy (non-`None`,
non-empty) monthly list was passed — the monthly section. -/
def format_events_for_claude (weekly : List ProcessedEvent)
    (monthly : Option (List ProcessedEvent)) : Except Unit (List Char) :=
  match weekly_section weekly with
  | .error u => .error u
  | .ok w =>
    let base := ("=== WEEKLY EVENTS (Next 7 Days) ===\n\n".data) ++ w
    match monthly with
    | none => .ok base
    | some ml =>
      if ml = [] then .ok base
      else
        match monthly_section weekly ml with
        | .error u => .error u
        | .ok ms => .ok (base ++ ms)

/-- Sample processed weekly event (timed, ends the weekly list). -/
def c1_weekly_ev : ProcessedEvent :=
  { summary := ("Weekly planning".data)
  , description := []
  , start := some ("2025-01-10T10:00:00+00:00".data)
  , end_ := some ("2025-01-10T11:00:00+00:00".data)
  , is_all_day := false
  , location := []
  , attendees := []
  , organizer := ("Unknown".data)
  , htmlLink := [] }

/-- Sample monthly event starting one hour before the weekly end. -/
def c1_month_before : ProcessedEvent :=
  { summary := ("Overlap item".data)
  , description := []
  , start := some ("2025-01-10T09:00:00+00:00".data)
  , end_ := some ("2025-01-10T09:30:00+00:00".data)
  , is_all_day := false
  , location := []
  , attendees := []
  , organizer := ("Unknown".data)
  , htmlLink := [] }

/-- Sample monthly event starting well after the weekly end. -/
def c1_month_after : ProcessedEvent :=
  { summary := ("Future item".data)
  , description := []
  , start := some ("2025-01-20T10:00:00+00:00".data)
  , end_ := some ("2025-01-20T11:00:00+00:00".data)
  , is_all_day := false
  , location := []
  , attendees := []
  , organizer := ("Unknown".data)
  , htmlLink := [] }

/-- The parsed start of `c1_weekly_ev` (the weekly end instant). -/
def c1_wend : PyDateTime := ⟨2025, 1, 10, 10, 0, 0, 0, some 0⟩

/-- The parsed start of `c1_month_before`. -/
def c1_before_dt : PyDateTime := ⟨2025, 1, 10, 9, 0, 0, 0, some 0⟩

/-- The parsed start of `c1_month_after`. -/
def c1_after_dt : PyDateTime := ⟨2025, 1, 20, 10, 0, 0, 0, some 0⟩

/-- Sample all-day monthly event with a parseable date-only start. -/
def c7_month_ev : ProcessedEvent :=
  { summary := ("Monthly reminder".data)
  , description := []
  , start := some ("2025-02-01".data)
  , end_ := some ("2025-02-02".data)
  , is_all_day := true
  , location := []
  , attendees := []
  , organizer := ("Unknown".data)
  , htmlLink := [] }

/-- Sample processed event with a 250-character description. -/
def c9_long_ev : ProcessedEvent :=
  { summary := ("Long briefing".data)
  , description := List.replicate 250 'x'
  , start := some ("2025-01-08T12:00:00+00:00".data)
  , end_ := some ("2025-01-08T13:00:00+00:00".data)
  , is_all_day := false
  , location := []
  , attendees := []
  , organizer := ("Unknown".data)
  , htmlLink := [] }

/-- Sample processed event with a 150-character description. -/
def c9_short_ev : ProcessedEvent :=
  { summary := ("Short briefing".data)
  , description := List.replicate 150 'y'
  , start := some ("2025-01-09T12:00:00+00:00".data)
  , end_ := some ("2025-01-09T13:00:00+00:00".data)
  , is_all_day := false
  , location := []
  , attendees := []
  , organizer := ("Unknown".data)
  , htmlLink := [] }

/-- The fixed truncation marker appended by `send_summary`
(`whatsapp_client.py` line 118): `"\n\n... (message truncated)"`. -/
def truncation_marker : List Char := ("\n\n... (message truncated)".data)

/-- The length-bound enforcement of `send_summary`
(`whatsapp_client.py` lines 111–118): if the formatted message exceeds
1600 characters it is cut to its first 1550 characters and the fixed
truncation marker is appended; otherwise it is returned unchanged. -/
def enforce_limit (message : List Char) : List Char :=
  if 1600 < message.length then message.take 1550 ++ truncation_marker
  else message

/-- The whole of `send_summary`'s message construction
(`whatsapp_client.py` lines 108–118): a subject header, a blank line,
the summary, then the length bound. -/
def send_summary_body (subject summary : List Char) : List Char :=
  enforce_limit (subject ++ ("\n\n".data) ++ summary)

theorem truncation_marker_length : truncation_marker.length = 25 := by decide

/-- C3: `enforce_limit` returns a message of length at most 1600
unchanged; a longer message becomes its first 1550 characters followed
by the marker `"\n\n... (message truncated)"`; the result never exceeds
1600 characters. -/
theorem c3_enforce_limit (m : List Char) :
    (m.length ≤ 1600 → enforce_limit m = m) ∧
    (1600 < m.length →
      enforce_limit m = m.take 1550 ++ ("\n\n... (message truncated)".data)) ∧
    (enforce_limit m).length ≤ 1600 := by
  unfold enforce_limit truncation_marker
  by_cases h : 1600 < m.length
  · refine ⟨fun hle => absurd h (by omega), fun _ => by simp [h], ?_⟩
    have hm : ("\n\n... (message truncated)".data).length = 25 := by decide
    simp only [if_pos h, List.length_append, List.length_take, hm]
    omega
  · refine ⟨fun _ => by simp [h], fun hgt => absurd hgt h, ?_⟩
    simp only [if_neg h]
    omega

/-- Witness for C3 at concrete inputs: a 5-character message passes
unchanged, and a 1601-character message is cut to 1550 characters plus
the marker. -/
theorem c3_witness :
    enforce_limit ("hello".data) = ("hello".data) ∧
    enforce_limit (List.replicate 1601 'a') =
      List.replicate 1550 'a' ++ ("\n\n... (message truncated)".data) := by
  constructor
  · exact (c3_enforce_limit ("hello".data)).1 (by decide)
  · have h := (c3_enforce_limit (List.replicate 1601 'a')).2.1
      (by rw [List.length_replicate]; omega)
    rw [h, List.take_replicate]
    norm_num

/-- `enforce_limit` is the identity on messages within the limit. -/
lemma enforce_limit_of_le (m : List Char) (h : ¬ 1600 < m.length) :
    enforce_limit m = m := by
  unfold enforce_limit; simp [h]

/-- C8: `enforce_limit` is idempotent — applying it twice yields the
same string as applying it once. -/
theorem c8_idempotent (s : List Char) :
    enforce_limit (enforce_limit s) = enforce_limit s := by
  by_cases h : 1600 < s.length
  · have h1 : enforce_limit s = s.take 1550 ++ truncation_marker := by
      unfold enforce_limit; simp [h]
    have hlen : (enforce_limit s).length = 1575 := by
      rw [h1]
      have hm : truncation_marker.length = 25 := by decide
      simp only [List.length_append, List.length_take, hm]
      omega
    exact enforce_limit_of_le _ (by omega)
  · rw [enforce_limit_of_le s h, enforce_limit_of_le s h]

/-- Stepping `get_events` under a common head preserves equality of the
results on the tails. -/
lemma get_events_cons_congr (e : RawEvent) {l₁ l₂ : List RawEvent}
    (h : get_events l₁ = get_events l₂) :
    get_events (e :: l₁) = get_events (e :: l₂) := by
  simp only [get_events, h]

/-- C2: a raw record with an attendee entry having `self == true` and
`responseStatus == "declined"` is recognised by `_is_declined`, and the
filtering loop of `get_events` drops it: the batch with the record
yields exactly the result of the batch without it. -/
theorem c2_declined_dropped (r : RawEvent) (a : RawAttendee)
    (ha : a ∈ r.attendees.getD []) (hself : a.self = some true)
    (hrs : a.responseStatus = some ("declined".data)) :
    is_declined r = true ∧
    ∀ pre post : List RawEvent,
      get_events (pre ++ r :: post) = get_events (pre ++ post) := by
  have hdecl : is_declined r = true := by
    unfold is_declined
    rw [List.any_eq_true]
    exact ⟨a, ha, by simp [hself, hrs]⟩
  refine ⟨hdecl, fun pre post => ?_⟩
  induction pre with
  | nil => simp [get_events, hdecl]
  | cons e pre ih =>
    simp only [List.cons_append]
    exact get_events_cons_congr e ih

/-- Witness for C2: a concrete batch of one kept record followed by one
self-declined record produces exactly the result of the batch without
the declined record. -/
theorem c2_witness :
    is_declined c2_ev = true ∧
    get_events [c4_good, c2_ev] = get_events [c4_good] := by
  have h := c2_declined_dropped c2_ev c2_att (by decide) (by decide) (by decide)
  exact ⟨h.1, h.2 [c4_good] []⟩

/-- Counterexample to C4: in the concrete batch `[c4_good, c4_bad]` the
second record lacks `start`/`end`, and `get_events` returns an error
with no event list at all — even though `c4_good` on its own normalizes
fine.  The claim's statement that the other records in the batch are
still normalized and returned is false. -/
theorem c4_counterexample :
    get_events [c4_good, c4_bad] = Except.error () ∧
    get_events [c4_good] = Except.ok [c4_good_processed] := by
  exact ⟨by decide, by decide⟩

/-- C4 (amended): a raw record lacking the required `start`/`end` data
is a hard failure — `_process_event` raises, and the error propagates
to `get_events`'s caller rather than being silently dropped — but it
aborts the whole batch: `get_events` returns an error and none of the
other records are returned. -/
theorem c4_malformed_aborts_batch (r : RawEvent) (hnd : is_declined r = false)
    (hmal : r.start = none ∨ r.end_ = none) (pre post : List RawEvent) :
    process_event r = Except.error () ∧
    get_events (pre ++ r :: post) = Except.error () := by
  have hpe : process_event r = Except.error () := by
    cases hs : r.start <;> cases he : r.end_ <;> simp_all [process_event]
  refine ⟨hpe, ?_⟩
  induction pre with
  | nil => simp [get_events, hnd, hpe]
  | cons e pre ih =>
    simp only [List.cons_append]
    by_cases hd : is_declined e
    · simpa [get_events, hd] using ih
    · cases hp : process_event e with
      | error u => cases u; simp [get_events, hd, hp]
      | ok p => simp [get_events, hd, hp, ih]

/-- Witness for C4 (amended) at a concrete batch. -/
theorem c4_witness :
    process_event c4_bad = Except.error () ∧
    get_events ([c4_good] ++ c4_bad :: []) = Except.error () :=
  c4_malformed_aborts_batch c4_bad (by decide) (Or.inl (by decide)) [c4_good] []

/-- Counterexample to C5: for the concrete record `c5_both`, whose raw
`start` mapping carries both a `dateTime` and a `date` entry,
`_process_event` selects the timestamp string for `start` (the
date-only value is not used), yet sets `is_all_day = true` — so
`is_all_day` does not hold iff the start field actually used is the
date-only one, and it disagrees with the representation family of
`start`. -/
theorem c5_counterexample :
    process_event c5_both = Except.ok c5_both_processed ∧
    c5_both_processed.start = some ("2024-03-05T09:00:00+00:00".data) ∧
    (c5_both.start.getD ⟨none, none⟩).dateTime = c5_both_processed.start ∧
    c5_both_processed.is_all_day = true := by
  exact ⟨by decide, by decide, by decide, by decide⟩

/-- C5 (amended): `is_all_day` is set to `true` iff the raw `start`
mapping contains the date-only key (`'date' in event['start']`),
regardless of which field's value is selected for `start`.  When the
record does not carry both representations at once — as the provider
guarantees — this coincides with the claim: a timed record uses the
timestamp field, and an all-day record without a timestamp field uses
the date-only field. -/
theorem c5_all_day_amended (r : RawEvent) (st : RawTime) (p : ProcessedEvent)
    (hst : r.start = some st) (hp : process_event r = Except.ok p) :
    p.is_all_day = st.date.isSome ∧
    (p.is_all_day = false → p.start = st.dateTime) ∧
    (p.is_all_day = true → st.dateTime = none → p.start = st.date) := by
  cases he : r.end_ with
  | none =>
    rw [process_event, hst, he] at hp
    exact absurd hp (by simp)
  | some en =>
    rw [process_event, hst, he] at hp
    have hp' := Except.ok.inj hp
    subst hp'
    refine ⟨rfl, ?_, ?_⟩
    · intro hfalse
      have hd : st.date = none := by
        cases hdc : st.date
        · rfl
        · rw [hdc] at hfalse; simp at hfalse
      simp [hd]
    · intro _ hdt
      simp [hdt]

/-- Witness for C5 (amended) at a concrete timed record. -/
theorem c5_witness :
    c4_good_processed.is_all_day =
      ((c4_good.start.getD ⟨none, none⟩).date).isSome ∧
    c4_good_processed.start = (c4_good.start.getD ⟨none, none⟩).dateTime := by
  have h := c5_all_day_amended c4_good ⟨some ("2025-01-06T09:00:00+00:00".data), none⟩
    c4_good_processed (by decide) (by decide)
  exact ⟨h.1, h.2.1 (by decide)⟩

/-- Membership in the processed attendee list: exactly the images of
the non-self raw entries. -/
lemma mem_collect_attendees (l : List RawAttendee) (ref : AttendeeRef) :
    ref ∈ collect_attendees l ↔
      ∃ a, a ∈ l ∧ a.self.getD false = false ∧ ref = mk_attendee_ref a := by
  induction l with
  | nil => simp [collect_attendees]
  | cons a rest ih =>
    by_cases h : a.self.getD false
    · rw [collect_attendees, if_pos h, ih]
      constructor
      · rintro ⟨b, hb, hbs, hbr⟩
        exact ⟨b, List.mem_cons_of_mem a hb, hbs, hbr⟩
      · rintro ⟨b, hb, hbs, hbr⟩
        rcases List.mem_cons.mp hb with hba | hbr'
        · rw [hba] at hbs; rw [hbs] at h; exact absurd h (by simp)
        · exact ⟨b, hbr', hbs, hbr⟩
    · rw [collect_attendees, if_neg h]
      constructor
      · intro hm
        rcases List.mem_cons.mp hm with hr | hr
        · exact ⟨a, List.mem_cons_self a rest, by simp [eq_false_of_ne_true h], hr⟩
        · rcases ih.mp hr with ⟨b, hb, hbs, hbr⟩
          exact ⟨b, List.mem_cons_of_mem a hb, hbs, hbr⟩
      · rintro ⟨b, hb, hbs, hbr⟩
        rcases List.mem_cons.mp hb with hba | hbr'
        · rw [hba] at hbr; rw [hbr]; exact List.mem_cons_self _ _
        · exact List.mem_cons_of_mem _ (ih.mpr ⟨b, hbr', hbs, hbr⟩)

/-- C6: for every raw record accepted by normalization, every non-self
attendee entry maps into the processed attendee list; a missing
`responseStatus` yields the `unknown` response status, and a missing
display name falls back to the entry's email.  Conversely every
processed attendee entry is the image of some non-self raw entry, so
self entries are never included. -/
theorem c6_attendee_mapping (r : RawEvent) (p : ProcessedEvent)
    (hp : process_event r = Except.ok p) :
    (∀ a ∈ r.attendees.getD [], a.self.getD false = false →
        mk_attendee_ref a ∈ p.attendees ∧
        (a.responseStatus = none →
          to_response_status (mk_attendee_ref a).status = ResponseStatus.unknown) ∧
        (a.displayName = none → (mk_attendee_ref a).name = a.email)) ∧
    (∀ ref ∈ p.attendees, ∃ a, a ∈ r.attendees.getD [] ∧
        a.self.getD false = false ∧ ref = mk_attendee_ref a) := by
  have hatt : p.attendees = collect_attendees (r.attendees.getD []) := by
    cases hs : r.start with
    | none => rw [process_event, hs] at hp; exact absurd hp (by simp)
    | some st =>
      cases he : r.end_ with
      | none =>
        rw [process_event, hs, he] at hp
        exact absurd hp (by simp)
      | some en =>
        rw [process_event, hs, he] at hp
        have hp' := Except.ok.inj hp
        subst hp'
        rfl
  constructor
  · intro a ha hself
    refine ⟨?_, ?_, ?_⟩
    · rw [hatt, mem_collect_attendees]
      exact ⟨a, ha, hself, rfl⟩
    · intro hrs
      simp [mk_attendee_ref, to_response_status, hrs]
    · intro hdn
      simp [mk_attendee_ref, hdn]
  · intro ref hm
    rw [hatt, mem_collect_attendees] at hm
    exact hm

/-- Witness for C6: in the processed form of the concrete record
`c6_ev`, the non-self entry (which has no `responseStatus` and no
display name) appears with response status `unknown` and its name
falls back to its email. -/
theorem c6_witness :
    mk_attendee_ref c6_att ∈ c6_processed.attendees ∧
    to_response_status (mk_attendee_ref c6_att).status = ResponseStatus.unknown ∧
    (mk_attendee_ref c6_att).name = c6_att.email := by
  have h := (c6_attendee_mapping c6_ev c6_processed (by decide)).1
    c6_att (by decide) (by decide)
  exact ⟨h.1, h.2.1 (by decide), h.2.2 (by decide)⟩

/-- Membership in the `future_events` result when a weekly end exists:
exactly the monthly events whose parsed start compares strictly greater
than the weekly end. -/
lemma mem_future_events (w : PyDateTime) :
    ∀ (l out : List ProcessedEvent),
      future_events (some w) l = Except.ok out →
      ∀ e d, parse_start e = some d →
        (e ∈ out ↔ e ∈ l ∧ py_gt d w = some true) := by
  intro l
  induction l with
  | nil =>
    intro out h e d _
    have hout : out = [] := (Except.ok.inj h).symm
    subst hout
    simp
  | cons ev rest ih =>
    intro out h e d hd
    cases hpe : parse_start ev with
    | none =>
      simp only [future_events, hpe] at h
      exact Except.noConfusion h
    | some d' =>
      cases hgt : py_gt d' w with
      | none =>
        simp only [future_events, hpe, hgt] at h
        exact Except.noConfusion h
      | some b =>
        cases ht : future_events (some w) rest with
        | error u =>
          simp only [future_events, hpe, hgt, ht] at h
          exact Except.noConfusion h
        | ok tail =>
          simp only [future_events, hpe, hgt, ht] at h
          have hout : out = if b then ev :: tail else tail :=
            (Except.ok.inj h).symm
          subst hout
          have ihe := ih tail ht e d hd
          by_cases heq : e = ev
          · subst heq
            have hdd : d' = d := by
              rw [hpe] at hd; exact Option.some.inj hd
            subst hdd
            cases b <;> simp_all [List.mem_cons]
          · cases b <;> simp_all [List.mem_cons]

/-- C1: with a non-empty weekly list whose computed weekly end is `w`,
and a monthly list on which the `future_events` loop succeeds, a
monthly event with parsed start `d` is included in the monthly section
(i.e. is among the rendered future events) iff `d` is strictly later
than `w`. -/
theorem c1_monthly_overlap (weekly monthly fut : List ProcessedEvent)
    (w : PyDateTime) (hne : weekly ≠ [])
    (hw : compute_weekly_end weekly = Except.ok (some w))
    (hfut : future_events (some w) monthly = Except.ok fut)
    (e : ProcessedEvent) (he : e ∈ monthly) (d : PyDateTime)
    (hd : parse_start e = some d) :
    e ∈ fut ↔ py_gt d w = some true := by
  have h := mem_future_events w monthly fut hfut e d hd
  constructor
  · intro hm
    exact (h.mp hm).2
  · intro hgt
    exact h.mpr ⟨he, hgt⟩

/-- Witness for C1 at a concrete weekly/monthly pair: the builder's
future list is exactly `[c1_month_after]`; the event one hour past the
weekly end is included iff its start compares greater (it does), the
event one hour before is included iff its start compares greater (it
does not). -/
theorem c1_witness :
    (c1_month_after ∈ [c1_month_after] ↔
      py_gt c1_after_dt c1_wend = some true) ∧
    (c1_month_before ∈ [c1_month_after] ↔
      py_gt c1_before_dt c1_wend = some true) := by
  constructor
  · exact c1_monthly_overlap [c1_weekly_ev] [c1_month_before, c1_month_after]
      [c1_month_after] c1_wend (by decide) (by decide) (by decide)
      c1_month_after (by decide) c1_after_dt (by decide)
  · exact c1_monthly_overlap [c1_weekly_ev] [c1_month_before, c1_month_after]
      [c1_month_after] c1_wend (by decide) (by decide) (by decide)
      c1_month_before (by decide) c1_before_dt (by decide)

/-- When there is no weekly end, the `future_events` loop keeps nothing
(the guard `weekly_end and ...` is always falsy), provided every
monthly start parses. -/
lemma future_events_none_weekly_end (l : List ProcessedEvent)
    (hparse : ∀ e ∈ l, (parse_start e).isSome) :
    future_events none l = Except.ok [] := by
  induction l with
  | nil => rfl
  | cons ev rest ih =>
    cases hpe : parse_start ev with
    | none =>
      have h := hparse ev (List.mem_cons_self ev rest)
      rw [hpe] at h
      simp at h
    | some d =>
      simp only [future_events, hpe]
      exact ih fun e he => hparse e (List.mem_cons_of_mem ev he)

/-- Counterexample to C7: with an empty weekly list and the concrete
non-empty monthly list `[c7_month_ev]` (whose start parses fine), the
builder includes no monthly event at all — the future list is empty
and the output is just the weekly header and the "no events" sentence,
with no monthly section — contradicting the claim that every monthly
event is included unfiltered. -/
theorem c7_counterexample :
    future_events none [c7_month_ev] = Except.ok [] ∧
    format_events_for_claude [] (some [c7_month_ev]) =
      Except.ok (("=== WEEKLY EVENTS (Next 7 Days) ===\n\n".data)
        ++ ("No events scheduled for the next week.\n".data)) := by
  exact ⟨by decide, by decide⟩

/-- C7 (amended): when the weekly sequence is empty and the monthly
sequence is non-empty (and every monthly start parses), the builder
excludes every monthly event: the guard `weekly_end and event_start >
weekly_end` is falsy without a weekly end, so the future list is empty,
the monthly section is omitted, and the output is the weekly header
with the "no events" sentence. -/
theorem c7_empty_weekly_amended (monthly : List ProcessedEvent)
    (hne : monthly ≠ [])
    (hparse : ∀ e ∈ monthly, (parse_start e).isSome) :
    future_events none monthly = Except.ok [] ∧
    format_events_for_claude [] (some monthly) =
      Except.ok (("=== WEEKLY EVENTS (Next 7 Days) ===\n\n".data)
        ++ ("No events scheduled for the next week.\n".data)) := by
  have hfe := future_events_none_weekly_end monthly hparse
  refine ⟨hfe, ?_⟩
  have hws : weekly_section ([] : List ProcessedEvent) =
      Except.ok ("No events scheduled for the next week.\n".data) := rfl
  have hcw : compute_weekly_end ([] : List ProcessedEvent) =
      Except.ok none := rfl
  simp only [format_events_for_claude, hws, monthly_section, hcw, hfe,
    if_neg hne]
  simp

/-- Witness for C7 (amended) at the concrete monthly list
`[c7_month_ev]`. -/
theorem c7_witness :
    future_events none [c7_month_ev] = Except.ok [] ∧
    format_events_for_claude [] (some [c7_month_ev]) =
      Except.ok (("=== WEEKLY EVENTS (Next 7 Days) ===\n\n".data)
        ++ ("No events scheduled for the next week.\n".data)) :=
  c7_empty_weekly_amended [c7_month_ev] (by decide)
    (fun e he => by
      rw [List.mem_singleton] at he
      rw [he]
      decide)

/-- C9: the rendered block includes a description line only when the
description is non-empty; a description longer than 200 characters is
rendered as exactly its first 200 characters followed by the ellipsis
marker `"..."` (a character-level cut), and one of at most 200
characters is rendered unmodified; whenever the block renders, the
description line appears inside it verbatim. -/
theorem c9_description_truncation (e : ProcessedEvent) :
    (e.description = [] → desc_part e = []) ∧
    (e.description ≠ [] → 200 < e.description.length →
      desc_part e = ("  Description: ".data)
        ++ (e.description.take 200 ++ ("...".data)) ++ ("\n".data)) ∧
    (e.description ≠ [] → e.description.length ≤ 200 →
      desc_part e = ("  Description: ".data) ++ e.description ++ ("\n".data)) ∧
    (∀ b, format_single_event e = Except.ok b →
      ∃ u v, b = u ++ desc_part e ++ v) := by
  refine ⟨?_, ?_, ?_, ?_⟩
  · intro h
    simp [desc_part, h]
  · intro h1 h2
    rw [desc_part, if_neg h1, if_pos h2]
  · intro h1 h2
    rw [desc_part, if_neg h1, if_neg (by omega)]
  · intro b hb
    cases ht : time_str e with
    | error u => rw [format_single_event, ht] at hb; exact absurd hb (by simp)
    | ok t =>
      rw [format_single_event, ht] at hb
      have hb' := Except.ok.inj hb
      exact ⟨("• ".data) ++ e.summary ++ ("\n".data) ++ ("  Time: ".data)
        ++ t ++ ("\n".data) ++ loc_part e, att_part e, hb'.symm⟩

/-- Witness for C9: a 250-character description renders as exactly its
first 200 characters followed by the ellipsis marker, and a
150-character description renders unmodified. -/
theorem c9_witness :
    desc_part c9_long_ev = ("  Description: ".data)
      ++ (List.replicate 200 'x' ++ ("...".data)) ++ ("\n".data) ∧
    desc_part c9_short_ev = ("  Description: ".data)
      ++ List.replicate 150 'y' ++ ("\n".data) := by
  constructor
  · have h := (c9_description_truncation c9_long_ev).2.1 (by decide) (by decide)
    rw [h]
    have ht : c9_long_ev.description.take 200 = List.replicate 200 'x' := by
      show (List.replicate 250 'x').take 200 = _
      rw [List.take_replicate]
      norm_num
    rw [ht]
  · exact (c9_description_truncation c9_short_ev).2.2.1 (by decide) (by decide)

/-- C10: passing an empty monthly list is indistinguishable from
passing no monthly list at all — both are falsy in Python's
`if monthly_events:` — so the built output is identical, with no
monthly section in either case. -/
theorem c10_empty_monthly_eq_none (weekly : List ProcessedEvent) :
    format_events_for_claude weekly (some []) =
      format_events_for_claude weekly none := by
  cases h : weekly_section weekly with
  | error u => simp [format_events_for_claude, h]
  | ok w => simp [format_events_for_claude, h]
